import Mathlib

/-!
# Verification of the cyclawps-node core against its specification

Shallow embedding of the event-driven trading-node core
(state engine, policy engine, risk engine, execution engine,
bonding-curve math, event ingestion, executor agent, deployer scores)
translated from the TypeScript sources, together with theorems
settling the specification claims.

Conventions of the embedding:
* JavaScript `bigint` values are modelled as `Int`; `bigint` division
  truncates toward zero (`Int.tdiv`) and throws on a zero divisor, so it
  is modelled by `bigintDiv : Int → Int → Option Int` (`none` = thrown
  `RangeError`).
* JavaScript floating-point numbers that carry percentages, scores and
  SOL amounts are modelled as `Rat`; on every input a claim touches, the
  float computations of the source are exact, so the rational model
  agrees with the IEEE semantics there.
* Timestamps (`Date.now()` milliseconds) are threaded as explicit `now`
  parameters of type `Nat`.
* Fallible I/O (RPC calls, transaction builders, simulation, send)
  is modelled by `Except String` / `Option` oracle fields in explicit
  environment records; a `.error msg` models a thrown exception whose
  message is `msg`.
* In-memory `Map` objects are modelled as association lists.
-/

namespace Cyclawps

/-! ## Bonding-curve math (`src/modules/pumpfun/pumpfun.service.ts`) -/

/-- Default fee: 1% (`DEFAULT_FEE_BPS = 100n`). -/
def DEFAULT_FEE_BPS : Int := 100

/-- `BondingCurveState` parsed from the on-chain account
(all reserve fields are `bigint` in the source; the `creator` public key
is modelled as a string). -/
structure BondingCurveState where
  virtualTokenReserves : Int
  virtualSolReserves : Int
  realTokenReserves : Int
  realSolReserves : Int
  tokenTotalSupply : Int
  complete : Bool
  creator : String
deriving DecidableEq, Repr

/-- `PumpQuote` (`amountIn`, `amountOut` are `bigint`; `priceImpactBps`
is a number obtained from integer arithmetic). -/
structure PumpQuote where
  amountIn : Int
  amountOut : Int
  priceImpactBps : Int
deriving DecidableEq, Repr

/-- JavaScript `bigint` division: truncates toward zero, throws a
`RangeError` on a zero divisor (modelled as `none`). -/
def bigintDiv (a b : Int) : Option Int :=
  if b = 0 then none else some (Int.tdiv a b)

/-- `PumpFunService.calculateBuyQuote`: fee-adjusted constant-product buy
quote.  The source's intermediate constants `netSol`
(`= solAmountIn × 10000 / (10000 + FEE)`) and `capped`
(`= min(tokensOut, realTokenReserves)`) are inlined.  Each `bigint`
division is evaluated in source order; a division by zero aborts the
whole call (`none`). -/
def calculateBuyQuote (state : BondingCurveState) (solAmountIn : Int) :
    Option PumpQuote :=
  match bigintDiv ((Int.tdiv (solAmountIn * 10000) (10000 + DEFAULT_FEE_BPS)) *
      state.virtualTokenReserves)
      (state.virtualSolReserves +
        Int.tdiv (solAmountIn * 10000) (10000 + DEFAULT_FEE_BPS)) with
  | none => none
  | some tokensOut =>
    match bigintDiv (state.virtualSolReserves * 10000)
        state.virtualTokenReserves with
    | none => none
    | some spotPrice =>
      match (if solAmountIn > 0 then
              bigintDiv (solAmountIn * 10000)
                (if tokensOut > state.realTokenReserves then
                  state.realTokenReserves else tokensOut)
             else some 0) with
      | none => none
      | some execPrice =>
        match (if spotPrice > 0 then
                bigintDiv ((execPrice - spotPrice) * 10000) spotPrice
               else some 0) with
        | none => none
        | some impact =>
          some { amountIn := solAmountIn,
                 amountOut :=
                   if tokensOut > state.realTokenReserves then
                     state.realTokenReserves else tokensOut,
                 priceImpactBps := max 0 impact }

/-- `PumpFunService.calculateSellQuote`: constant-product sell quote with
the 1% fee taken from the SOL output (`netSol` and `capped` inlined as in
`calculateBuyQuote`). -/
def calculateSellQuote (state : BondingCurveState) (tokenAmountIn : Int) :
    Option PumpQuote :=
  match bigintDiv (tokenAmountIn * state.virtualSolReserves)
      (state.virtualTokenReserves + tokenAmountIn) with
  | none => none
  | some grossSol =>
    match bigintDiv (state.virtualSolReserves * 10000)
        state.virtualTokenReserves with
    | none => none
    | some spotPrice =>
      match (if tokenAmountIn > 0 then
              bigintDiv
                ((if Int.tdiv (grossSol * (10000 - DEFAULT_FEE_BPS)) 10000 >
                    state.realSolReserves then state.realSolReserves
                  else Int.tdiv (grossSol * (10000 - DEFAULT_FEE_BPS)) 10000) *
                  10000)
                tokenAmountIn
             else some 0) with
      | none => none
      | some execPrice =>
        match (if spotPrice > 0 then
                bigintDiv ((spotPrice - execPrice) * 10000) spotPrice
               else some 0) with
        | none => none
        | some impact =>
          some { amountIn := tokenAmountIn,
                 amountOut :=
                   if Int.tdiv (grossSol * (10000 - DEFAULT_FEE_BPS)) 10000 >
                      state.realSolReserves then state.realSolReserves
                   else Int.tdiv (grossSol * (10000 - DEFAULT_FEE_BPS)) 10000,
                 priceImpactBps := max 0 impact }

/-- `PumpFunService.applySlippage`: buy-side maximum cost /
sell-side minimum receipt. -/
def applySlippage (amount : Int) (slippageBps : Int) (isBuy : Bool) : Int :=
  if isBuy then Int.tdiv (amount * (10000 + slippageBps)) 10000
  else Int.tdiv (amount * (10000 - slippageBps)) 10000

/-! ### Concrete curve-state vectors used by witnesses and counterexamples -/

/-- A small well-formed bonding-curve state used to witness the quote
theorems on concrete numbers. -/
def demoCurveState : BondingCurveState :=
  { virtualTokenReserves := 100, virtualSolReserves := 100,
    realTokenReserves := 10, realSolReserves := 10,
    tokenTotalSupply := 1000, complete := false, creator := "dev" }

/-- The buy quote `calculateBuyQuote demoCurveState 50` evaluates to. -/
def demoBuyQuote : PumpQuote :=
  { amountIn := 50, amountOut := 10, priceImpactBps := 40000 }

/-- The sell quote `calculateSellQuote demoCurveState 50` evaluates to. -/
def demoSellQuote : PumpQuote :=
  { amountIn := 50, amountOut := 10, priceImpactBps := 8000 }

/-- A curve state satisfying the documented invariant
(`virtualToken, virtualSol, realToken > 0`, `complete = false`) on which
a buy quote hits the division-by-zero hole. -/
def degenerateCurveState : BondingCurveState :=
  { virtualTokenReserves := 1, virtualSolReserves := 1000000,
    realTokenReserves := 5, realSolReserves := 5,
    tokenTotalSupply := 1000000, complete := false, creator := "dev" }

/-! ## Deployer reputation scoring (`src/intelligence/deployer-scores.ts`) -/

/-- `DeployerProfile` without its derived `score` field (the argument type
of `computeScore`). -/
structure DeployerProfile where
  address : String
  totalLaunches : Nat
  rugCount : Nat
  rugRate : Rat
  avgTokenLifespanMs : Rat
  connectedWallets : List String
  lastSeen : Nat
deriving DecidableEq, Repr

/-- JavaScript `Math.round`: rounds half away from zero toward positive
infinity, i.e. `⌊x + 1/2⌋`. -/
def jsRound (x : Rat) : Int := ⌊x + 1/2⌋

/-- `DeployerScoreEngine.computeScore`: base 50, rug-rate penalty,
launch-count bonus, lifespan bonus, connected-wallet penalty, recency
decay, clamped to `[0, 100]` after rounding.  `Date.now()` is the
explicit `now` parameter. -/
def computeScore (profile : DeployerProfile) (now : Nat) : Int :=
  let score1 : Rat := 50 - profile.rugRate * 40
  let score2 := score1 + min 15 ((profile.totalLaunches : Rat) * 1.5)
  let lifespanHours := profile.avgTokenLifespanMs / (1000 * 60 * 60)
  let score3 := score2 + min 20 (lifespanHours * 2)
  let score4 := score3 - min 15 ((profile.connectedWallets.length : Rat) * 3)
  let daysSinceLastSeen :=
    ((now : Rat) - (profile.lastSeen : Rat)) / (1000 * 60 * 60 * 24)
  let score5 :=
    if daysSinceLastSeen > 7 then
      score4 - min 10 ((daysSinceLastSeen - 7) * 0.5)
    else score4
  max 0 (min 100 (jsRound score5))

/-- The profile of the specification's deployer-score scenario:
`totalLaunches = 10`, `rugRate = 0.2`, `avgTokenLifespanMs = 3.6·10⁶`,
two connected wallets, `lastSeen = now`. -/
def demoDeployerProfile : DeployerProfile :=
  { address := "deployer", totalLaunches := 10, rugCount := 2,
    rugRate := 1/5, avgTokenLifespanMs := 3600000,
    connectedWallets := ["w1", "w2"], lastSeen := 1700000000000 }

/-- The `Date.now()` instant of the deployer-score scenario
(equal to the profile's `lastSeen`). -/
def demoScoreNow : Nat := 1700000000000

/-! ## Association-list maps (model of the in-memory `Map` objects) -/

/-- `Map.get`: first value stored under the key. -/
def mapFind {K V : Type} [DecidableEq K] (m : List (K × V)) (k : K) :
    Option V :=
  match m with
  | [] => none
  | (k2, v) :: rest => if k2 = k then some v else mapFind rest k

/-- `Map.set`: replace the value stored under the key in place, or append
a new binding. -/
def mapSet {K V : Type} [DecidableEq K] (m : List (K × V)) (k : K) (v : V) :
    List (K × V) :=
  match m with
  | [] => [(k, v)]
  | (k2, w) :: rest =>
    if k2 = k then (k2, v) :: rest else (k2, w) :: mapSet rest k v

/-! ## Event model (`src/types/events.ts`) -/

/-- The `DEV_WALLET_SELL` variant of `InternalEvent`
(`amount` is a decimal string, `percentageOfHoldings` a float). -/
structure DevWalletEvent where
  id : String
  timestamp : Nat
  slot : Nat
  signature : String
  devWallet : String
  mintAddress : String
  amount : String
  percentageOfHoldings : Rat
deriving DecidableEq, Repr

/-! ## State Engine (`src/modules/state-engine/state-engine.service.ts`) -/

/-- One entry of a `DevWalletMetrics.recentSells` ring. -/
structure RecentSell where
  timestamp : Nat
  percentage : Rat
  slot : Nat
deriving DecidableEq, Repr

/-- `DevWalletMetrics` for one `(mint, devWallet)` key. -/
structure DevWalletMetrics where
  mintAddress : String
  devWallet : String
  totalSellCount : Nat
  totalSellPercentage : Rat
  recentSells : List RecentSell
  lastUpdated : Nat
deriving DecidableEq, Repr

/-- The `devMetrics` map. The source keys it by the template string
`mint + ":" + devWallet`; the key is modelled as the pair directly. -/
abbrev DevMetricsMap := List ((String × String) × DevWalletMetrics)

/-- The metrics object created by `handleDevSell` on the first sell for
a key (the `else` branch of the source). -/
def freshDevMetrics (event : DevWalletEvent) (now : Nat) :
    DevWalletMetrics :=
  { mintAddress := event.mintAddress, devWallet := event.devWallet,
    totalSellCount := 1,
    totalSellPercentage := event.percentageOfHoldings,
    recentSells := [{ timestamp := event.timestamp,
                      percentage := event.percentageOfHoldings,
                      slot := event.slot }],
    lastUpdated := now }

/-- The in-place mutation `handleDevSell` performs on existing metrics:
bump `totalSellCount`, add `percentageOfHoldings` to
`totalSellPercentage`, push onto `recentSells` keeping only the last 100
entries (`slice(-100)`), stamp `lastUpdated`. -/
def bumpDevMetrics (existing : DevWalletMetrics) (event : DevWalletEvent)
    (now : Nat) : DevWalletMetrics :=
  let pushed := existing.recentSells ++
    [{ timestamp := event.timestamp,
       percentage := event.percentageOfHoldings, slot := event.slot }]
  { existing with
    totalSellCount := existing.totalSellCount + 1,
    totalSellPercentage :=
      existing.totalSellPercentage + event.percentageOfHoldings,
    recentSells :=
      if pushed.length > 100 then pushed.drop (pushed.length - 100)
      else pushed,
    lastUpdated := now }

/-- `StateEngine.handleDevSell`: upsert the metrics for
`(mint, devWallet)`. -/
def handleDevSell (m : DevMetricsMap) (event : DevWalletEvent) (now : Nat) :
    DevMetricsMap :=
  match mapFind m (event.mintAddress, event.devWallet) with
  | some existing =>
    mapSet m (event.mintAddress, event.devWallet)
      (bumpDevMetrics existing event now)
  | none =>
    mapSet m (event.mintAddress, event.devWallet)
      (freshDevMetrics event now)

/-- All metrics in a map carry a zero cumulative percentage and a ring
of zero-percentage sells (the shape produced by percentage-zero
events). -/
def ZeroPctMap (m : DevMetricsMap) : Prop :=
  ∀ kv ∈ m, kv.2.totalSellPercentage = 0 ∧
    ∀ s ∈ kv.2.recentSells, s.percentage = 0

/-- `StateEngine.getDevSellPercentageInWindow`: sum of the ring
percentages with `timestamp ≥ now − windowMs` (0 for an unknown key). -/
def getDevSellPercentageInWindow (m : DevMetricsMap)
    (mintAddress devWallet : String) (windowMs now : Nat) : Rat :=
  match mapFind m (mintAddress, devWallet) with
  | none => 0
  | some metrics =>
    (metrics.recentSells.filter
        (fun s => s.timestamp ≥ now - windowMs)).foldl
      (fun sum s => sum + s.percentage) 0

/-- `PositionStatus`. -/
inductive PositionStatus where
  | OPEN
  | CLOSING
  | CLOSED
  | FAILED
deriving DecidableEq, Repr

/-- `PositionState` (`tokenBalance` is a `bigint`;
`entryAmountSol`/`entryPrice` are floats). -/
structure PositionState where
  id : String
  walletId : String
  trackedTokenId : String
  mintAddress : String
  entryAmountSol : Rat
  tokenBalance : Int
  entryPrice : Option Rat
  status : PositionStatus
  openedAt : Nat
  closedAt : Option Nat
deriving DecidableEq, Repr

/-- `Partial<PositionState>`: each field is present (`some`) or absent
(`none`); nullable fields carry their nullable value inside. -/
structure PositionUpdate where
  id : Option String := none
  walletId : Option String := none
  trackedTokenId : Option String := none
  mintAddress : Option String := none
  entryAmountSol : Option Rat := none
  tokenBalance : Option Int := none
  entryPrice : Option (Option Rat) := none
  status : Option PositionStatus := none
  openedAt : Option Nat := none
  closedAt : Option (Option Nat) := none
deriving DecidableEq, Repr

/-- `Object.assign(existing, update)`: every field present in the update
overwrites the stored field. -/
def applyUpdate (p : PositionState) (u : PositionUpdate) : PositionState :=
  { id := u.id.getD p.id,
    walletId := u.walletId.getD p.walletId,
    trackedTokenId := u.trackedTokenId.getD p.trackedTokenId,
    mintAddress := u.mintAddress.getD p.mintAddress,
    entryAmountSol := u.entryAmountSol.getD p.entryAmountSol,
    tokenBalance := u.tokenBalance.getD p.tokenBalance,
    entryPrice := u.entryPrice.getD p.entryPrice,
    status := u.status.getD p.status,
    openedAt := u.openedAt.getD p.openedAt,
    closedAt := u.closedAt.getD p.closedAt }

/-- The `positions` map of the State Engine. -/
abbrev PositionsMap := List (String × PositionState)

/-- `StateEngine.updatePosition`: `Object.assign` the update onto the
stored position; a missing id is a no-op. -/
def updatePosition (positions : PositionsMap) (positionId : String)
    (update : PositionUpdate) : PositionsMap :=
  match mapFind positions positionId with
  | some existing =>
    mapSet positions positionId (applyUpdate existing update)
  | none => positions

/-! ## Event ingestion (`handleDevWalletChange`) -/

/-- One dev-wallet `onAccountChange` callback: the subscription's wallet
and mint, the context slot, the `Date.now()` timestamp, and the
`randomUUID` drawn for the event. -/
structure DevWalletChangeInput where
  id : String
  devWallet : String
  mintAddress : String
  slot : Nat
  now : Nat
deriving DecidableEq, Repr

/-- `EventIngestionService.handleDevWalletChange`: the `DEV_WALLET_SELL`
event emitted for a dev-wallet account change.  The account data is
ignored by the source; the event always carries `amount = "0"` and
`percentageOfHoldings = 0`. -/
def handleDevWalletChange (input : DevWalletChangeInput) : DevWalletEvent :=
  { id := input.id, timestamp := input.now, slot := input.slot,
    signature := "", devWallet := input.devWallet,
    mintAddress := input.mintAddress, amount := "0",
    percentageOfHoldings := 0 }

/-- The events produced by a stream of dev-wallet account-change
callbacks. -/
def ingestDevSells (inputs : List DevWalletChangeInput) :
    List DevWalletEvent :=
  inputs.map handleDevWalletChange

/-- The State Engine's handling of a whole stream of ingested
`DEV_WALLET_SELL` events, oldest first. -/
def applyDevSells (m : DevMetricsMap) (events : List DevWalletEvent)
    (now : Nat) : DevMetricsMap :=
  events.foldl (fun acc e => handleDevSell acc e now) m

/-- Number of ingestion callbacks for a given `(mint, devWallet)` key. -/
def countForKey (inputs : List DevWalletChangeInput)
    (mintAddress devWallet : String) : Nat :=
  (inputs.filter
    (fun i => i.mintAddress = mintAddress ∧ i.devWallet = devWallet)).length

/-- Number of `DEV_WALLET_SELL` events for a `(mint, devWallet)` key. -/
def countEventsForKey (events : List DevWalletEvent)
    (mintAddress devWallet : String) : Nat :=
  (events.filter
    (fun e => e.mintAddress = mintAddress ∧ e.devWallet = devWallet)).length

/-- `totalSellCount` stored for a key (0 when the key is unknown). -/
def devSellCountOf (m : DevMetricsMap) (mintAddress devWallet : String) :
    Nat :=
  ((mapFind m (mintAddress, devWallet)).map
    DevWalletMetrics.totalSellCount).getD 0

/-- `totalSellPercentage` stored for a key (0 when the key is unknown). -/
def devSellPercentageOf (m : DevMetricsMap)
    (mintAddress devWallet : String) : Rat :=
  ((mapFind m (mintAddress, devWallet)).map
    DevWalletMetrics.totalSellPercentage).getD 0

/-! ## Policy Engine (`src/modules/policy-engine/policy-engine.service.ts`) -/

/-- `PolicyDefinition.trigger`. -/
inductive PolicyTrigger where
  | DEV_SELL_PERCENTAGE
  | DEV_SELL_COUNT
  | LP_REMOVAL_PERCENTAGE
  | SUPPLY_INCREASE
  | PRICE_DROP_PERCENTAGE
deriving DecidableEq, Repr

/-- `PolicyDefinition.action`. -/
inductive PolicyAction where
  | EXIT_POSITION
  | PARTIAL_SELL
  | HALT_STRATEGY
  | ALERT_ONLY
deriving DecidableEq, Repr

/-- `PolicyDefinition.actionParams`. -/
structure ActionParams where
  sellPercentage : Option Rat := none
  maxSlippageBps : Option Int := none
  priorityFeeLamports : Option Int := none
deriving DecidableEq, Repr

/-- `PolicyDefinition`. -/
structure PolicyDefinition where
  id : String
  name : String
  trigger : PolicyTrigger
  threshold : Rat
  windowBlocks : Option Nat := none
  windowSeconds : Option Nat := none
  action : PolicyAction
  actionParams : Option ActionParams := none
  priority : Int
  isActive : Bool
  trackedTokenId : Option String := none
deriving DecidableEq, Repr

/-- `PolicyEvaluationResult` (the human-readable `reason` string is
omitted). -/
structure PolicyEvaluationResult where
  policyId : String
  triggered : Bool
  action : PolicyAction
  actionParams : Option ActionParams
  triggerValue : Rat
  threshold : Rat
deriving DecidableEq, Repr

/-- `PolicyEngine.evaluateDevSellPercentage`: reads the windowed dev-sell
percentage from the State Engine for the event's `(mint, devWallet)` key
(window `(windowSeconds ?? 600) × 1000` ms) and triggers when it reaches
the threshold. -/
def evaluateDevSellPercentage (policy : PolicyDefinition)
    (event : DevWalletEvent) (metrics : DevMetricsMap) (now : Nat) :
    PolicyEvaluationResult :=
  let windowMs := (policy.windowSeconds.getD 600) * 1000
  let totalPct := getDevSellPercentageInWindow metrics event.mintAddress
    event.devWallet windowMs now
  { policyId := policy.id,
    triggered := decide (totalPct ≥ policy.threshold),
    action := policy.action, actionParams := policy.actionParams,
    triggerValue := totalPct, threshold := policy.threshold }

/-! ## Event-bus dispatch of a `DEV_WALLET_SELL` event

`EventBus.emit` first emits on the catch-all `'event'` channel and then
on the per-type channel (`src/services/event-bus.ts`, `emit`).  Per
`main.ts` startup order, the `'event'` channel holds the Policy Engine's
subscriber (registered in `PolicyEngine.start`) followed by the
Orchestrator's (registered in `Orchestrator.start`); the
`DEV_WALLET_SELL` channel holds the State Engine's `handleDevSell`
(registered in `StateEngine.start`).  Both catch-all subscribers run
`PolicyEngine.evaluateEvent` — whose body contains no `await` — before
their first suspension point, so each policy evaluation reads the dev
metrics synchronously when the subscriber is invoked.  A subscriber is
therefore modelled as a state transformer on the dev-metrics map that
also records the windowed dev-sell percentage each policy evaluation
observed. -/
inductive CoreSubscriber where
  | policyEngineSub
  | orchestratorSub
  | stateEngineDevSellSub
deriving DecidableEq, Repr

/-- Run one subscriber on a `DEV_WALLET_SELL` event: the two policy
evaluators record the windowed percentage they read and leave the
metrics unchanged; the State Engine's typed subscriber updates the
metrics and records nothing. -/
def runDevSellSubscriber (policy : PolicyDefinition) (now : Nat)
    (sub : CoreSubscriber) (m : DevMetricsMap) (event : DevWalletEvent) :
    DevMetricsMap × List Rat :=
  match sub with
  | .policyEngineSub =>
    (m, [(evaluateDevSellPercentage policy event m now).triggerValue])
  | .orchestratorSub =>
    (m, [(evaluateDevSellPercentage policy event m now).triggerValue])
  | .stateEngineDevSellSub => (handleDevSell m event now, [])

/-- Subscribers of the catch-all `'event'` channel, in registration
order (`policyEngine.start()` before `orchestrator.start()`). -/
def eventChannelSubscribers : List CoreSubscriber :=
  [.policyEngineSub, .orchestratorSub]

/-- Subscribers of the typed `DEV_WALLET_SELL` channel. -/
def devSellTypedSubscribers : List CoreSubscriber :=
  [.stateEngineDevSellSub]

/-- `EventBus.emit` for a `DEV_WALLET_SELL` event: run the catch-all
channel's subscribers, then the typed channel's, threading the
dev-metrics map and accumulating the policy observations in order. -/
def emitDevSell (policy : PolicyDefinition) (now : Nat) (m : DevMetricsMap)
    (event : DevWalletEvent) : DevMetricsMap × List Rat :=
  (eventChannelSubscribers ++ devSellTypedSubscribers).foldl
    (fun acc sub =>
      let step := runDevSellSubscriber policy now sub acc.1 event
      (step.1, acc.2 ++ step.2))
    (m, [])

/-! ### Concrete events, policies and positions for witnesses -/

/-- A concrete `DEV_WALLET_SELL` event selling 10% of holdings. -/
def demoDevSellEvent : DevWalletEvent :=
  { id := "e1", timestamp := 1700000000000, slot := 100,
    signature := "sig1", devWallet := "dev1", mintAddress := "mint1",
    amount := "1000", percentageOfHoldings := 10 }

/-- A `DevSellPercentage` policy with a 5% threshold over the default
600-second window. -/
def demoDevSellPolicy : PolicyDefinition :=
  { id := "pol1", name := "dev-sell-pct",
    trigger := PolicyTrigger.DEV_SELL_PERCENTAGE, threshold := 5,
    windowSeconds := some 600, action := PolicyAction.EXIT_POSITION,
    priority := 10, isActive := true }

/-- A closed position (`status = CLOSED`, zero balance). -/
def demoClosedPosition : PositionState :=
  { id := "p1", walletId := "w1", trackedTokenId := "t1",
    mintAddress := "mint1", entryAmountSol := 1, tokenBalance := 0,
    entryPrice := none, status := PositionStatus.CLOSED, openedAt := 1,
    closedAt := some 2 }

/-- A partial update that sets only `status = OPEN`. -/
def demoReopenUpdate : PositionUpdate := { status := some .OPEN }

/-- A partial update that sets only `tokenBalance`. -/
def demoBalanceUpdate : PositionUpdate := { tokenBalance := some 500000 }

/-- A concrete ingestion callback for the C10 witness. -/
def demoDevWalletChange : DevWalletChangeInput :=
  { id := "u1", devWallet := "dev1", mintAddress := "mint1", slot := 7,
    now := 1700000000000 }

/-- A second concrete ingestion callback for the C10 witness. -/
def demoDevWalletChange2 : DevWalletChangeInput :=
  { id := "u2", devWallet := "dev1", mintAddress := "mint1", slot := 9,
    now := 1700000000500 }

/-! ## Risk Engine (`src/modules/risk-engine/risk-engine.service.ts`) -/

/-- The `rule` tags of `RiskViolation`. -/
inductive RiskRule where
  | MAX_SLIPPAGE
  | MAX_PRIORITY_FEE
  | EXECUTION_COOLDOWN
  | MAX_POSITION_SIZE
  | INVALID_SELL_PERCENTAGE
deriving DecidableEq, Repr

/-- `RiskViolation` (the interpolated `message` string is modelled by
`violationMessage` below). -/
structure RiskViolation where
  rule : RiskRule
  currentValue : Rat
  limit : Rat
deriving DecidableEq, Repr

/-- The static text of a violation's `message` (numeric interpolation of
the source's template strings is abstracted away). -/
def violationMessage (v : RiskViolation) : String :=
  match v.rule with
  | .MAX_SLIPPAGE => "Slippage exceeds limit"
  | .MAX_PRIORITY_FEE => "Priority fee exceeds limit"
  | .EXECUTION_COOLDOWN => "Cooldown not elapsed"
  | .MAX_POSITION_SIZE => "Position size exceeds limit"
  | .INVALID_SELL_PERCENTAGE => "Sell percentage is invalid"

/-- `RiskParameters` from the container (immutable after start). -/
structure RiskParameters where
  maxPositionSizeSol : Rat
  maxSlippageBps : Int
  maxPriorityFeeLamports : Int
  executionCooldownMs : Int
deriving DecidableEq, Repr

/-- `ExecutionRequest.action`. -/
inductive ExecutionAction where
  | FULL_EXIT
  | PARTIAL_SELL
  | HALT
deriving DecidableEq, Repr

/-- `ExecutionRequest`. -/
structure ExecutionRequest where
  positionId : String
  policyId : String
  action : ExecutionAction
  sellPercentage : Rat
  maxSlippageBps : Int
  priorityFeeLamports : Int
deriving DecidableEq, Repr

/-- `RiskCheckResult`. -/
structure RiskCheckResult where
  approved : Bool
  violations : List RiskViolation
deriving DecidableEq, Repr

/-- The Risk Engine's private `lastExecutionTime` map. -/
abbrev LastExecutionMap := List (String × Nat)

/-- Rule 1: slippage cap. -/
def slippageViolations (params : RiskParameters)
    (request : ExecutionRequest) : List RiskViolation :=
  if request.maxSlippageBps > params.maxSlippageBps then
    [{ rule := .MAX_SLIPPAGE, currentValue := request.maxSlippageBps,
       limit := params.maxSlippageBps }]
  else []

/-- Rule 2: priority-fee cap. -/
def feeViolations (params : RiskParameters) (request : ExecutionRequest) :
    List RiskViolation :=
  if request.priorityFeeLamports > params.maxPriorityFeeLamports then
    [{ rule := .MAX_PRIORITY_FEE,
       currentValue := request.priorityFeeLamports,
       limit := params.maxPriorityFeeLamports }]
  else []

/-- Rule 3: per-position cooldown.  The source's `if (lastExec)` is a
JavaScript truthiness test, so a stored timestamp of `0` skips the
check; `elapsed = Date.now() − lastExec` is signed. -/
def cooldownViolations (params : RiskParameters) (now : Nat)
    (lastExecutionTime : LastExecutionMap) (positionId : String) :
    List RiskViolation :=
  match mapFind lastExecutionTime positionId with
  | some lastExec =>
    if lastExec ≠ 0 then
      if (now : Int) - lastExec < params.executionCooldownMs then
        [{ rule := .EXECUTION_COOLDOWN,
           currentValue := ((now : Int) - lastExec : Int),
           limit := params.executionCooldownMs }]
      else []
    else []
  | none => []

/-- Rule 4: position size (looked up via the State Engine; an absent
position is not a violation). -/
def positionSizeViolations (params : RiskParameters)
    (position : Option PositionState) : List RiskViolation :=
  match position with
  | some p =>
    if p.entryAmountSol > params.maxPositionSizeSol then
      [{ rule := .MAX_POSITION_SIZE, currentValue := p.entryAmountSol,
         limit := params.maxPositionSizeSol }]
    else []
  | none => []

/-- Rule 5: sell-percentage range. -/
def sellPercentageViolations (request : ExecutionRequest) :
    List RiskViolation :=
  if request.sellPercentage ≤ 0 ∨ request.sellPercentage > 100 then
    [{ rule := .INVALID_SELL_PERCENTAGE,
       currentValue := request.sellPercentage, limit := 100 }]
  else []

/-- All violations collected by `RiskEngine.evaluate`, in source
order — the source pushes onto one array and never short-circuits. -/
def allViolations (params : RiskParameters)
    (position : Option PositionState) (now : Nat)
    (lastExecutionTime : LastExecutionMap) (request : ExecutionRequest) :
    List RiskViolation :=
  slippageViolations params request ++ feeViolations params request ++
    cooldownViolations params now lastExecutionTime request.positionId ++
    positionSizeViolations params position ++
    sellPercentageViolations request

/-- `RiskEngine.evaluate`: collect all violations; when none were found,
stamp `lastExecutionTime[positionId] = Date.now()`.  The State Engine
lookup of the request's position is the `position` parameter; the
returned map is the engine's updated private state. -/
def RiskEngine.evaluate (params : RiskParameters)
    (position : Option PositionState) (now : Nat)
    (lastExecutionTime : LastExecutionMap) (request : ExecutionRequest) :
    RiskCheckResult × LastExecutionMap :=
  let violations := allViolations params position now lastExecutionTime
    request
  ({ approved := violations.isEmpty, violations := violations },
   if violations = [] then mapSet lastExecutionTime request.positionId now
   else lastExecutionTime)

/-! ## Execution Engine
(`src/modules/execution-engine/execution-engine.service.ts`) -/

/-- `ExecutionStatus`. -/
inductive ExecutionStatus where
  | PENDING
  | SIMULATING
  | SUBMITTED
  | CONFIRMED
  | FAILED
deriving DecidableEq, Repr

/-- `SimulationResult` as built by `simulateTransaction`
(`success ↔ result.value.err === null`; `error` is the JSON-rendered
`err`). -/
structure SimulationResult where
  success : Bool
  unitsConsumed : Nat
  logs : List String
  error : Option String
deriving DecidableEq, Repr

/-- `ExecutionResult` (`amountIn`/`amountOut` are the source's decimal
strings, modelled as the integers they render). -/
structure ExecutionResult where
  id : String
  status : ExecutionStatus
  txSignature : Option String
  amountIn : Option Int
  amountOut : Option Int
  errorMessage : Option String
  simulationResult : Option SimulationResult
  completedAt : Nat
deriving DecidableEq, Repr

/-- The observable side effects `execute` performs, in order:
persisting the execution row, updating the position row in the store,
one `sendRawTransaction` attempt, and a `RiskEngine.resetCooldown`
call.  (`resetCooldown` exists on the Risk Engine —
`lastExecutionTime.delete(positionId)` — and is listed here so the
trace can state whether `execute` ever invokes it.) -/
inductive ExecEffect where
  | persistExecution (status : ExecutionStatus)
  | updatePositionDb
  | sendAttempt
  | resetCooldown (positionId : String)
deriving DecidableEq, Repr

/-- Oracle for the I/O performed by `execute`: the bonding-curve fetch,
the transaction build (instruction assembly + blockhash fetch), the
simulation (`.ok errOpt` is `result.value.err`, rendered; `.error` is a
thrown RPC error), and the overall send-with-retries outcome together
with the number of `sendRawTransaction` attempts it performed. -/
structure ExecEnv where
  curve : Except String BondingCurveState
  buildOutcome : Except String Unit
  simOutcome : Except String (Option String)
  simUnits : Nat
  simLogs : List String
  sendOutcome : Except String String
  sendAttemptsMade : Nat
deriving Repr

/-- The full outcome of one `execute` call: the returned
`ExecutionResult`, the Risk Engine's `lastExecutionTime` map after the
call, the in-memory position after the call, and the effect trace. -/
structure ExecOutcome where
  result : ExecutionResult
  lastExecutionTime : LastExecutionMap
  position : Option PositionState
  effects : List ExecEffect
deriving Repr

/-- A `FAILED` `ExecutionResult` (the shape every failure branch of
`execute` persists: no signature, the branch's `errorMessage`, optional
`amountIn`/`simulationResult`). -/
def failedResult (executionId : String) (now : Nat) (amountIn : Option Int)
    (errorMessage : String) (simulationResult : Option SimulationResult) :
    ExecutionResult :=
  { id := executionId, status := .FAILED, txSignature := none,
    amountIn := amountIn, amountOut := none,
    errorMessage := some errorMessage,
    simulationResult := simulationResult, completedAt := now }

/-- The `CONFIRMED` `ExecutionResult` built on a successful send. -/
def confirmedResult (executionId : String) (now : Nat)
    (txSignature : String) (amountIn amountOut : Int)
    (simulationResult : SimulationResult) : ExecutionResult :=
  { id := executionId, status := .CONFIRMED,
    txSignature := some txSignature, amountIn := some amountIn,
    amountOut := some amountOut, errorMessage := none,
    simulationResult := some simulationResult, completedAt := now }

/-- `ExecutionEngine.execute`: risk check → position lookup → quote →
build → simulate → send-with-retries → state/DB update, with the
failure taxonomy of the source (risk-rejected, position-missing,
simulation-failed, thrown errors through the top-level catch). -/
def ExecutionEngine.execute (executionId : String)
    (params : RiskParameters) (now : Nat) (request : ExecutionRequest)
    (position : Option PositionState)
    (lastExecutionTime : LastExecutionMap) (env : ExecEnv) : ExecOutcome :=
  let riskStep := RiskEngine.evaluate params position now
    lastExecutionTime request
  if riskStep.1.approved = false then
    { result := failedResult executionId now none
        ("Risk violations: " ++ String.intercalate "; "
          (riskStep.1.violations.map violationMessage)) none,
      lastExecutionTime := riskStep.2, position := position,
      effects := [.persistExecution .FAILED] }
  else
    match position with
    | none =>
      { result := failedResult executionId now none
          ("Position " ++ request.positionId ++ " not found") none,
        lastExecutionTime := riskStep.2, position := position,
        effects := [.persistExecution .FAILED] }
    | some p =>
      let sellAmount := Int.tdiv
        (p.tokenBalance * ⌊request.sellPercentage⌋) 100
      match env.curve with
      | .error msg =>
        { result := failedResult executionId now none msg none,
          lastExecutionTime := riskStep.2, position := some p,
          effects := [.persistExecution .FAILED] }
      | .ok curveState =>
        match calculateSellQuote curveState sellAmount with
        | none =>
          { result := failedResult executionId now none
              "Division by zero" none,
            lastExecutionTime := riskStep.2, position := some p,
            effects := [.persistExecution .FAILED] }
        | some quote =>
          match env.buildOutcome with
          | .error msg =>
            { result := failedResult executionId now none msg none,
              lastExecutionTime := riskStep.2, position := some p,
              effects := [.persistExecution .FAILED] }
          | .ok _ =>
            match env.simOutcome with
            | .error msg =>
              { result := failedResult executionId now none msg none,
                lastExecutionTime := riskStep.2, position := some p,
                effects := [.persistExecution .FAILED] }
            | .ok errOpt =>
              let simulation : SimulationResult :=
                { success := errOpt.isNone,
                  unitsConsumed := env.simUnits, logs := env.simLogs,
                  error := errOpt }
              if simulation.success = false then
                { result := failedResult executionId now
                    (some sellAmount)
                    ("Simulation failed: " ++ errOpt.getD "null")
                    (some simulation),
                  lastExecutionTime := riskStep.2, position := some p,
                  effects := [.persistExecution .FAILED] }
              else
                match env.sendOutcome with
                | .error msg =>
                  { result := failedResult executionId now none msg none,
                    lastExecutionTime := riskStep.2, position := some p,
                    effects :=
                      List.replicate env.sendAttemptsMade .sendAttempt ++
                        [.persistExecution .FAILED] }
                | .ok txSignature =>
                  let newBalance := p.tokenBalance - sellAmount
                  let updatedPosition := applyUpdate p
                    { tokenBalance := some newBalance,
                      status := some (if newBalance = 0 then .CLOSED
                        else .OPEN),
                      closedAt := some (if newBalance = 0 then some now
                        else none) }
                  { result := confirmedResult executionId now txSignature
                      sellAmount quote.amountOut simulation,
                    lastExecutionTime := riskStep.2,
                    position := some updatedPosition,
                    effects :=
                      List.replicate env.sendAttemptsMade .sendAttempt ++
                        [.persistExecution .CONFIRMED,
                         .updatePositionDb] }

/-! ## Executor agent (`src/agents/executor-agent.ts`) -/

/-- `ExecutionPlan.action` (`'enter' | 'exit' | 'partial_exit' |
'skip'`). -/
inductive PlanAction where
  | enter
  | exitFull
  | partialExit
  | skipPlan
deriving DecidableEq, Repr

/-- `ExecutionPlan.urgency`. -/
inductive Urgency where
  | critical
  | high
  | medium
  | low
deriving DecidableEq, Repr

/-- `ExecutionPlan` (fields the executor reads; `solAmount` is the
entries' SOL size, absent for exits). -/
structure ExecutionPlan where
  id : String
  action : PlanAction
  mintAddress : String
  positionId : Option String
  solAmount : Option Rat
  sellPercentage : Option Rat
  maxSlippageBps : Int
  priorityFeeLamports : Int
  urgency : Urgency
deriving DecidableEq, Repr

/-- The `execution-result` message `sendMessage('memory', ...)`
delivers (payload fields the claims need). -/
structure MemoryMessage where
  planId : String
  action : PlanAction
  success : Bool
  error : Option String
deriving DecidableEq, Repr

/-- Oracle for the executor's I/O: the bonding-curve fetch, the buy
instruction build, the simulation (`.ok errOpt` is `sim.value.err`),
the raw send, and — for exits — the inputs of the delegated
`ExecutionEngine.execute` call. -/
structure ExecutorEnv where
  curve : Except String BondingCurveState
  buildOutcome : Except String Unit
  simOutcome : Except String (Option String)
  sendOutcome : Except String String
  execId : String
  execParams : RiskParameters
  execNow : Nat
  execPosition : Option PositionState
  execLastExecution : LastExecutionMap
  execEnv : ExecEnv
deriving Repr

/-- `ExecutorAgent.executeEntry`: abandon silently (no message, `.ok
[]`) when the plan has no positive SOL amount, when the bonding curve is
already complete, or when the buy simulation reports an error; `.error`
models a thrown exception that `executePlan`'s catch turns into a
failure report; a completed send reports success to memory. -/
def ExecutorAgent.executeEntry (plan : ExecutionPlan)
    (env : ExecutorEnv) : Except String (List MemoryMessage) :=
  match plan.solAmount with
  | none => .ok []
  | some solAmount =>
    if solAmount ≤ 0 then .ok []
    else
      match env.curve with
      | .error msg => .error msg
      | .ok curveState =>
        if curveState.complete then .ok []
        else
          match calculateBuyQuote curveState
              (jsRound (solAmount * 1000000000)) with
          | none => .error "Division by zero"
          | some _quote =>
            match env.buildOutcome with
            | .error msg => .error msg
            | .ok _ =>
              match env.simOutcome with
              | .error msg => .error msg
              | .ok (some _) => .ok []
              | .ok none =>
                match env.sendOutcome with
                | .error msg => .error msg
                | .ok _ =>
                  .ok [{ planId := plan.id, action := .enter,
                         success := true, error := none }]

/-- `ExecutorAgent.executeExit`: no `positionId` → warn and return (no
message); otherwise delegate to `ExecutionEngine.execute`
(`sellPercentage = 100` for a full exit, else the plan's value ?? 50)
and always report the outcome to memory. -/
def ExecutorAgent.executeExit (plan : ExecutionPlan)
    (env : ExecutorEnv) : List MemoryMessage :=
  match plan.positionId with
  | none => []
  | some positionId =>
    let sellPercentage : Rat :=
      if plan.action = .exitFull then 100
      else plan.sellPercentage.getD 50
    let request : ExecutionRequest :=
      { positionId := positionId,
        policyId := "agent:sentinel:" ++ plan.id,
        action := if sellPercentage ≥ 100 then .FULL_EXIT
          else .PARTIAL_SELL,
        sellPercentage := sellPercentage,
        maxSlippageBps := plan.maxSlippageBps,
        priorityFeeLamports := plan.priorityFeeLamports }
    let outcome := ExecutionEngine.execute env.execId env.execParams
      env.execNow request env.execPosition env.execLastExecution
      env.execEnv
    [{ planId := plan.id, action := plan.action,
       success := decide (outcome.result.status = .CONFIRMED),
       error := none }]

/-- `ExecutorAgent.executePlan`: dispatch on the plan's action; a
thrown error from `executeEntry` is caught and reported to memory as a
failed `execution-result`. -/
def ExecutorAgent.executePlan (plan : ExecutionPlan)
    (env : ExecutorEnv) : List MemoryMessage :=
  match plan.action with
  | .enter =>
    match ExecutorAgent.executeEntry plan env with
    | .ok msgs => msgs
    | .error msg =>
      [{ planId := plan.id, action := plan.action, success := false,
         error := some msg }]
  | .exitFull => ExecutorAgent.executeExit plan env
  | .partialExit => ExecutorAgent.executeExit plan env
  | .skipPlan => []

/-! ### Concrete risk/execution/executor vectors for witnesses -/

/-- The default risk parameters of the test fixtures. -/
def demoRiskParams : RiskParameters :=
  { maxPositionSizeSol := 1, maxSlippageBps := 300,
    maxPriorityFeeLamports := 100000, executionCooldownMs := 5000 }

/-- An open position within the size cap. -/
def demoOpenPosition : PositionState :=
  { id := "pos1", walletId := "w1", trackedTokenId := "t1",
    mintAddress := "mint1", entryAmountSol := 1,
    tokenBalance := 1000000, entryPrice := none,
    status := PositionStatus.OPEN, openedAt := 1, closedAt := none }

/-- A request that passes every static risk rule. -/
def demoValidRequest : ExecutionRequest :=
  { positionId := "pos1", policyId := "pol1",
    action := ExecutionAction.FULL_EXIT, sellPercentage := 100,
    maxSlippageBps := 200, priorityFeeLamports := 50000 }

/-- The same request with a slippage above the 300-bps cap. -/
def demoRejectedRequest : ExecutionRequest :=
  { demoValidRequest with maxSlippageBps := 500 }

/-- An I/O oracle on which every step succeeds in one send attempt. -/
def demoExecEnv : ExecEnv :=
  { curve := .ok demoCurveState, buildOutcome := .ok (),
    simOutcome := .ok none, simUnits := 50000, simLogs := [],
    sendOutcome := .ok "sig", sendAttemptsMade := 1 }

/-- An oracle whose simulation reports a non-null error. -/
def demoSimFailEnv : ExecEnv :=
  { demoExecEnv with simOutcome := .ok (some "custom program error 1") }

/-- The quote `calculateSellQuote demoCurveState 1000000` (the sell
amount of a full exit of `demoOpenPosition`) evaluates to. -/
def demoSellQuoteLarge : PumpQuote :=
  { amountIn := 1000000, amountOut := 10, priceImpactBps := 10000 }

/-- An entry plan carrying a zero SOL amount. -/
def demoZeroAmountPlan : ExecutionPlan :=
  { id := "plan1", action := PlanAction.enter, mintAddress := "mint1",
    positionId := none, solAmount := some 0, sellPercentage := none,
    maxSlippageBps := 300, priorityFeeLamports := 100000,
    urgency := Urgency.medium }

/-- A critical full-exit plan with a position id. -/
def demoExitPlan : ExecutionPlan :=
  { id := "plan2", action := PlanAction.exitFull,
    mintAddress := "mint1", positionId := some "pos1",
    solAmount := none, sellPercentage := none, maxSlippageBps := 200,
    priorityFeeLamports := 50000, urgency := Urgency.critical }

/-- An executor oracle on which every step succeeds. -/
def demoExecutorEnv : ExecutorEnv :=
  { curve := .ok demoCurveState, buildOutcome := .ok (),
    simOutcome := .ok none, sendOutcome := .ok "sig", execId := "x1",
    execParams := demoRiskParams, execNow := 1000,
    execPosition := some demoOpenPosition, execLastExecution := [],
    execEnv := demoExecEnv }

end Cyclawps

namespace Cyclawps

/-! ## Helper lemmas: bonding-curve math -/

theorem bigintDiv_of_ne (a b : Int) (hb : b ≠ 0) :
    bigintDiv a b = some (Int.tdiv a b) := by
  simp [bigintDiv, hb]

theorem buyQuote_amountOut_le (s : BondingCurveState) (b : Int)
    (q : PumpQuote) (h : calculateBuyQuote s b = some q) :
    q.amountOut ≤ s.realTokenReserves := by
  unfold calculateBuyQuote at h
  split at h
  · exact Option.noConfusion h
  case _ tokensOut htok =>
    split at h
    · exact Option.noConfusion h
    case _ spot hspot =>
      split at h
      · exact Option.noConfusion h
      case _ exec hexec =>
        split at h
        · exact Option.noConfusion h
        case _ impact himp =>
          cases h
          dsimp only
          split <;> omega

theorem sellQuote_amountOut_le (s : BondingCurveState) (t : Int)
    (q : PumpQuote) (h : calculateSellQuote s t = some q) :
    q.amountOut ≤ s.realSolReserves := by
  unfold calculateSellQuote at h
  split at h
  · exact Option.noConfusion h
  case _ grossSol hgross =>
    split at h
    · exact Option.noConfusion h
    case _ spot hspot =>
      split at h
      · exact Option.noConfusion h
      case _ exec hexec =>
        split at h
        · exact Option.noConfusion h
        case _ impact himp =>
          cases h
          dsimp only
          split <;> omega

theorem buyQuote_zero_input (s : BondingCurveState)
    (hvt : 0 < s.virtualTokenReserves) (hvs : 0 < s.virtualSolReserves)
    (hrt : 0 ≤ s.realTokenReserves) :
    ∃ q, calculateBuyQuote s 0 = some q ∧ q.amountOut = 0 := by
  have hnet : Int.tdiv ((0 : Int) * 10000) (10000 + DEFAULT_FEE_BPS) = 0 := by
    decide
  unfold calculateBuyQuote
  rw [hnet]
  rw [show (0 : Int) * s.virtualTokenReserves = 0 from zero_mul _,
    show s.virtualSolReserves + 0 = s.virtualSolReserves from add_zero _,
    bigintDiv_of_ne 0 s.virtualSolReserves hvs.ne',
    bigintDiv_of_ne (s.virtualSolReserves * 10000) s.virtualTokenReserves
      hvt.ne', Int.zero_tdiv]
  dsimp only
  rw [if_neg (lt_irrefl (0 : Int))]
  dsimp only
  by_cases hs : Int.tdiv (s.virtualSolReserves * 10000)
      s.virtualTokenReserves > 0
  · rw [if_pos hs, bigintDiv_of_ne _ _ (ne_of_gt hs)]
    exact ⟨_, rfl, if_neg (by omega)⟩
  · rw [if_neg hs]
    exact ⟨_, rfl, if_neg (by omega)⟩

theorem sellQuote_zero_input (s : BondingCurveState)
    (hvt : 0 < s.virtualTokenReserves)
    (hrs : 0 ≤ s.realSolReserves) :
    ∃ q, calculateSellQuote s 0 = some q ∧ q.amountOut = 0 := by
  unfold calculateSellQuote
  rw [show (0 : Int) * s.virtualSolReserves = 0 from zero_mul _,
    show s.virtualTokenReserves + 0 = s.virtualTokenReserves from add_zero _,
    bigintDiv_of_ne 0 s.virtualTokenReserves hvt.ne',
    bigintDiv_of_ne (s.virtualSolReserves * 10000) s.virtualTokenReserves
      hvt.ne', Int.zero_tdiv]
  dsimp only
  have hg : Int.tdiv ((0 : Int) * (10000 - DEFAULT_FEE_BPS)) 10000 = 0 := by
    decide
  rw [hg, if_neg (lt_irrefl (0 : Int))]
  dsimp only
  by_cases hs : Int.tdiv (s.virtualSolReserves * 10000)
      s.virtualTokenReserves > 0
  · rw [if_pos hs, bigintDiv_of_ne _ _ (ne_of_gt hs)]
    exact ⟨_, rfl, if_neg (by omega)⟩
  · rw [if_neg hs]
    exact ⟨_, rfl, if_neg (by omega)⟩

/-! ## Claims C6 and C9 -/

/-- **C6.** For every `BondingCurveState` and every `baseIn`,
a returned buy quote's `amountOut` never exceeds `realTokenReserves`,
and a returned sell quote's `amountOut` never exceeds `realSolReserves`;
moreover, for zero input (on states whose reserves satisfy the documented
well-formedness bounds) both quote functions return a quote with zero
output. -/
theorem calculateQuote_output_bounds :
    (∀ (s : BondingCurveState) (b : Int) (q : PumpQuote),
        calculateBuyQuote s b = some q → q.amountOut ≤ s.realTokenReserves) ∧
    (∀ (s : BondingCurveState) (t : Int) (q : PumpQuote),
        calculateSellQuote s t = some q → q.amountOut ≤ s.realSolReserves) ∧
    (∀ s : BondingCurveState,
        0 < s.virtualTokenReserves → 0 < s.virtualSolReserves →
        0 ≤ s.realTokenReserves → 0 ≤ s.realSolReserves →
        (∃ q, calculateBuyQuote s 0 = some q ∧ q.amountOut = 0) ∧
        (∃ q, calculateSellQuote s 0 = some q ∧ q.amountOut = 0)) :=
  ⟨buyQuote_amountOut_le, sellQuote_amountOut_le,
   fun s hvt hvs hrt hrs =>
     ⟨buyQuote_zero_input s hvt hvs hrt, sellQuote_zero_input s hvt hrs⟩⟩

/-- **C6 witness**: the bounds evaluated on the concrete state
`demoCurveState` with inputs `50` and `0`. -/
theorem calculateQuote_output_bounds_witness :
    demoBuyQuote.amountOut ≤ demoCurveState.realTokenReserves ∧
    demoSellQuote.amountOut ≤ demoCurveState.realSolReserves ∧
    (∃ q, calculateBuyQuote demoCurveState 0 = some q ∧ q.amountOut = 0) ∧
    (∃ q, calculateSellQuote demoCurveState 0 = some q ∧ q.amountOut = 0) :=
  ⟨calculateQuote_output_bounds.1 demoCurveState 50 demoBuyQuote (by decide),
   calculateQuote_output_bounds.2.1 demoCurveState 50 demoSellQuote
     (by decide),
   (calculateQuote_output_bounds.2.2 demoCurveState (by decide) (by decide)
     (by decide) (by decide)).1,
   (calculateQuote_output_bounds.2.2 demoCurveState (by decide) (by decide)
     (by decide) (by decide)).2⟩

/-- **C9.** There is a `BondingCurveState` satisfying the documented
invariant (positive virtual reserves, positive real token reserves,
`complete = false`) and a positive `baseIn` on which `calculateBuyQuote`
does not return a quote: the fee-adjusted constant-product token output
truncates to `0` (shown by the first equation), so the execution-price
expression divides by the zero capped output and the call aborts with a
division-by-zero error (`none`). -/
theorem calculateBuyQuote_division_by_zero :
    ∃ (s : BondingCurveState) (b : Int),
      0 < s.virtualTokenReserves ∧ 0 < s.virtualSolReserves ∧
      0 < s.realTokenReserves ∧ s.complete = false ∧ 0 < b ∧
      bigintDiv ((Int.tdiv (b * 10000) (10000 + DEFAULT_FEE_BPS)) *
          s.virtualTokenReserves)
        (s.virtualSolReserves +
          Int.tdiv (b * 10000) (10000 + DEFAULT_FEE_BPS)) = some 0 ∧
      calculateBuyQuote s b = none :=
  ⟨degenerateCurveState, 1, by decide, by decide, by decide, by decide,
   by decide, by decide, by decide⟩

/-! ## Claim C4 -/

/-- **C4 counterexample.** On the scenario profile (`totalLaunches = 10`,
`rugRate = 0.2`, `avgTokenLifespanMs = 3.6·10⁶`, two connected wallets,
`lastSeen = now`) `computeScore` does **not** return 73: the formula
gives `50 − 8 + 15 + 2 − 6 − 0 = 53`, not 73. -/
theorem computeScore_demo_ne_73 :
    computeScore demoDeployerProfile demoScoreNow ≠ 73 := by
  norm_num [computeScore, jsRound, demoDeployerProfile, demoScoreNow,
    min_def]

/-- **C4 (amended).** `computeScore` applied to the scenario profile
returns `round(50 − 40×0.2 + min(15, 10×1.5) + min(20, 1×2) −
min(15, 2×3) − 0) = 53`. -/
theorem computeScore_demo_eq_53 :
    computeScore demoDeployerProfile demoScoreNow = 53 := by
  norm_num [computeScore, jsRound, demoDeployerProfile, demoScoreNow,
    min_def]

/-! ## Helper lemmas: association-list maps -/

theorem mapFind_mem {K V : Type} [DecidableEq K] (m : List (K × V))
    (k : K) (v : V) (h : mapFind m k = some v) : (k, v) ∈ m := by
  induction m with
  | nil => exact Option.noConfusion h
  | cons kv rest ih =>
    obtain ⟨k2, w⟩ := kv
    unfold mapFind at h
    split at h
    · cases h
      simp_all
    · exact List.mem_cons_of_mem _ (ih h)

theorem mapFind_set_self {K V : Type} [DecidableEq K] (m : List (K × V))
    (k : K) (v : V) : mapFind (mapSet m k v) k = some v := by
  induction m with
  | nil => simp [mapSet, mapFind]
  | cons kv rest ih =>
    obtain ⟨k2, w⟩ := kv
    by_cases h : k2 = k <;> simp [mapSet, mapFind, h, ih]

theorem mapFind_set_ne {K V : Type} [DecidableEq K] (m : List (K × V))
    (k k2 : K) (v : V) (h : k2 ≠ k) :
    mapFind (mapSet m k v) k2 = mapFind m k2 := by
  induction m with
  | nil => simp [mapSet, mapFind, Ne.symm h]
  | cons kv rest ih =>
    obtain ⟨k3, w⟩ := kv
    by_cases h3 : k3 = k
    · subst h3
      simp [mapSet, mapFind, Ne.symm h]
    · by_cases h2 : k3 = k2 <;> simp [mapSet, mapFind, h3, h2, h, ih]

theorem mem_mapSet {K V : Type} [DecidableEq K] (m : List (K × V))
    (k : K) (v : V) (kv : K × V) (h : kv ∈ mapSet m k v) :
    kv ∈ m ∨ kv.2 = v := by
  induction m with
  | nil =>
    simp only [mapSet, List.mem_singleton] at h
    right
    rw [h]
  | cons hd rest ih =>
    obtain ⟨k2, w⟩ := hd
    unfold mapSet at h
    split at h
    · rcases List.mem_cons.mp h with h1 | h1
      · right
        rw [h1]
      · exact Or.inl (List.mem_cons_of_mem _ h1)
    · rcases List.mem_cons.mp h with h1 | h1
      · exact Or.inl (h1 ▸ List.mem_cons_self _ _)
      · rcases ih h1 with h2 | h2
        · exact Or.inl (List.mem_cons_of_mem _ h2)
        · exact Or.inr h2

/-! ## Claim C2 -/

/-- **C2 counterexample.** `updatePosition` applied to a `CLOSED`
position with the partial update `{status: OPEN}` switches the status
backwards to `OPEN`. -/
theorem updatePosition_reopen_counterexample :
    demoClosedPosition.status = PositionStatus.CLOSED ∧
    (mapFind (updatePosition [("p1", demoClosedPosition)] "p1"
        demoReopenUpdate) "p1").map PositionState.status =
      some PositionStatus.OPEN :=
  ⟨rfl, rfl⟩

/-- **C2 (amended).** `updatePosition` applies the partial update
verbatim (`Object.assign`): the stored position becomes exactly
`applyUpdate p u`, so the status — in particular a `CLOSED` one — is
preserved when (and only guaranteed when) the update does not itself
carry a `status` field. -/
theorem updatePosition_applies_update (positions : PositionsMap)
    (positionId : String) (u : PositionUpdate) (p : PositionState)
    (h : mapFind positions positionId = some p) :
    mapFind (updatePosition positions positionId u) positionId =
      some (applyUpdate p u) ∧
    (u.status = none → (applyUpdate p u).status = p.status) := by
  constructor
  · unfold updatePosition
    rw [h]
    exact mapFind_set_self positions positionId (applyUpdate p u)
  · intro hu
    simp [applyUpdate, hu]

/-- **C2 witness**: the amended statement instantiated on a concrete
closed position and a balance-only update. -/
theorem updatePosition_applies_update_witness :
    mapFind [("p1", demoClosedPosition)] "p1" = some demoClosedPosition ∧
    (mapFind (updatePosition [("p1", demoClosedPosition)] "p1"
        demoBalanceUpdate) "p1" =
        some (applyUpdate demoClosedPosition demoBalanceUpdate) ∧
      (demoBalanceUpdate.status = none →
        (applyUpdate demoClosedPosition demoBalanceUpdate).status =
          demoClosedPosition.status)) :=
  ⟨rfl, updatePosition_applies_update [("p1", demoClosedPosition)] "p1"
    demoBalanceUpdate demoClosedPosition rfl⟩

/-! ## Helper lemmas: dev-metrics accumulation -/

theorem foldl_add_pct_zero (l : List RecentSell) (init : Rat)
    (h : ∀ s ∈ l, s.percentage = 0) :
    l.foldl (fun sum s => sum + s.percentage) init = init := by
  induction l generalizing init with
  | nil => rfl
  | cons s rest ih =>
    simp only [List.foldl_cons]
    rw [h s (List.mem_cons_self s rest), add_zero]
    exact ih init (fun t ht => h t (List.mem_cons_of_mem _ ht))

theorem window_zero_of_zeroPct (m : DevMetricsMap)
    (mintAddress devWallet : String) (windowMs now : Nat)
    (hm : ZeroPctMap m) :
    getDevSellPercentageInWindow m mintAddress devWallet windowMs now
      = 0 := by
  unfold getDevSellPercentageInWindow
  split
  · rfl
  next metrics hfind =>
    exact foldl_add_pct_zero _ 0 (fun s hs =>
      (hm _ (mapFind_mem _ _ _ hfind)).2 s (List.mem_of_mem_filter hs))

theorem totalPct_zero_of_zeroPct (m : DevMetricsMap)
    (mintAddress devWallet : String) (hm : ZeroPctMap m) :
    devSellPercentageOf m mintAddress devWallet = 0 := by
  unfold devSellPercentageOf
  cases hfind : mapFind m (mintAddress, devWallet) with
  | none => rfl
  | some metrics =>
    simpa using (hm _ (mapFind_mem _ _ _ hfind)).1

theorem freshDevMetrics_zero (e : DevWalletEvent) (now : Nat)
    (he : e.percentageOfHoldings = 0) :
    (freshDevMetrics e now).totalSellPercentage = 0 ∧
    ∀ s ∈ (freshDevMetrics e now).recentSells, s.percentage = 0 := by
  constructor
  · simpa [freshDevMetrics] using he
  · intro s hs
    simp only [freshDevMetrics, List.mem_singleton] at hs
    rw [hs]
    exact he

theorem bumpDevMetrics_zero (existing : DevWalletMetrics)
    (e : DevWalletEvent) (now : Nat)
    (h1 : existing.totalSellPercentage = 0)
    (h2 : ∀ s ∈ existing.recentSells, s.percentage = 0)
    (he : e.percentageOfHoldings = 0) :
    (bumpDevMetrics existing e now).totalSellPercentage = 0 ∧
    ∀ s ∈ (bumpDevMetrics existing e now).recentSells,
      s.percentage = 0 := by
  constructor
  · simp [bumpDevMetrics, h1, he]
  · intro s hs
    simp only [bumpDevMetrics] at hs
    have hs2 : s ∈ existing.recentSells ++
        [{ timestamp := e.timestamp, percentage := e.percentageOfHoldings,
           slot := e.slot }] := by
      split at hs
      · exact List.mem_of_mem_drop hs
      · exact hs
    rcases List.mem_append.mp hs2 with h3 | h3
    · exact h2 s h3
    · rw [List.mem_singleton.mp h3]
      exact he

theorem handleDevSell_zeroPct (m : DevMetricsMap) (e : DevWalletEvent)
    (now : Nat) (hm : ZeroPctMap m) (he : e.percentageOfHoldings = 0) :
    ZeroPctMap (handleDevSell m e now) := by
  unfold handleDevSell
  split
  next existing hfind =>
    intro kv hkv
    rcases mem_mapSet _ _ _ _ hkv with hmem | hval
    · exact hm kv hmem
    · have hex := hm _ (mapFind_mem _ _ _ hfind)
      rw [hval]
      exact bumpDevMetrics_zero existing e now hex.1 hex.2 he
  next hfind =>
    intro kv hkv
    rcases mem_mapSet _ _ _ _ hkv with hmem | hval
    · exact hm kv hmem
    · rw [hval]
      exact freshDevMetrics_zero e now he

theorem applyDevSells_zeroPct (events : List DevWalletEvent) :
    ∀ (m : DevMetricsMap) (now : Nat), ZeroPctMap m →
      (∀ e ∈ events, e.percentageOfHoldings = 0) →
      ZeroPctMap (applyDevSells m events now) := by
  induction events with
  | nil => exact fun m now hm _ => hm
  | cons e rest ih =>
    intro m now hm hz
    have h1 : applyDevSells m (e :: rest) now =
        applyDevSells (handleDevSell m e now) rest now := by
      simp [applyDevSells]
    rw [h1]
    exact ih _ now
      (handleDevSell_zeroPct m e now hm (hz e (List.mem_cons_self e rest)))
      (fun e2 h2 => hz e2 (List.mem_cons_of_mem _ h2))

theorem devSellCountOf_handleDevSell (m : DevMetricsMap)
    (e : DevWalletEvent) (now : Nat) (mintAddress devWallet : String) :
    devSellCountOf (handleDevSell m e now) mintAddress devWallet =
      devSellCountOf m mintAddress devWallet +
        (if e.mintAddress = mintAddress ∧ e.devWallet = devWallet then 1
         else 0) := by
  by_cases hk : (mintAddress, devWallet) = (e.mintAddress, e.devWallet)
  · have h1 : mintAddress = e.mintAddress := congrArg Prod.fst hk
    have h2 : devWallet = e.devWallet := congrArg Prod.snd hk
    unfold handleDevSell
    split
    next existing hfind =>
      unfold devSellCountOf
      rw [hk, mapFind_set_self, hfind]
      simp [bumpDevMetrics, h1.symm, h2.symm]
    next hfind =>
      unfold devSellCountOf
      rw [hk, mapFind_set_self, hfind]
      simp [freshDevMetrics, h1.symm, h2.symm]
  · have hcond : ¬(e.mintAddress = mintAddress ∧ e.devWallet = devWallet) :=
      fun hc => hk (by rw [hc.1, hc.2])
    unfold handleDevSell
    split <;>
      (unfold devSellCountOf; rw [mapFind_set_ne _ _ _ _ hk]; simp [hcond])

theorem devSellCountOf_applyDevSells (events : List DevWalletEvent) :
    ∀ (m : DevMetricsMap) (now : Nat) (mintAddress devWallet : String),
      devSellCountOf (applyDevSells m events now) mintAddress devWallet =
        devSellCountOf m mintAddress devWallet +
          countEventsForKey events mintAddress devWallet := by
  induction events with
  | nil => simp [applyDevSells, countEventsForKey]
  | cons e rest ih =>
    intro m now mintAddress devWallet
    have h1 : applyDevSells m (e :: rest) now =
        applyDevSells (handleDevSell m e now) rest now := by
      simp [applyDevSells]
    rw [h1, ih, devSellCountOf_handleDevSell]
    have h2 : countEventsForKey (e :: rest) mintAddress devWallet =
        (if e.mintAddress = mintAddress ∧ e.devWallet = devWallet then 1
         else 0) + countEventsForKey rest mintAddress devWallet := by
      unfold countEventsForKey
      by_cases hc : e.mintAddress = mintAddress ∧ e.devWallet = devWallet
      · rw [List.filter_cons, if_pos (decide_eq_true hc),
          List.length_cons, if_pos hc]
        omega
      · simp [List.filter_cons, hc]
    rw [h2]
    omega

theorem countEventsForKey_ingest (inputs : List DevWalletChangeInput)
    (mintAddress devWallet : String) :
    countEventsForKey (ingestDevSells inputs) mintAddress devWallet =
      countForKey inputs mintAddress devWallet := by
  unfold countEventsForKey countForKey ingestDevSells
  induction inputs with
  | nil => rfl
  | cons i rest ih =>
    rw [List.map_cons, List.filter_cons, List.filter_cons]
    by_cases hc : i.mintAddress = mintAddress ∧ i.devWallet = devWallet
    · have hc2 : (handleDevWalletChange i).mintAddress = mintAddress ∧
          (handleDevWalletChange i).devWallet = devWallet := hc
      rw [if_pos (decide_eq_true hc2), if_pos (decide_eq_true hc),
        List.length_cons, List.length_cons, ih]
    · have hc2 : ¬((handleDevWalletChange i).mintAddress = mintAddress ∧
          (handleDevWalletChange i).devWallet = devWallet) := hc
      rw [if_neg (by simp [hc2]), if_neg (by simp [hc])]
      exact ih

/-! ## Claim C10 -/

/-- **C10.** Every `DEV_WALLET_SELL` event produced by
`handleDevWalletChange` carries `amount = "0"` and
`percentageOfHoldings = 0`; consequently, feeding any stream of ingested
events into the State Engine leaves every key's `totalSellPercentage`
and every windowed dev-sell percentage at 0, while `totalSellCount`
equals the number of ingested events for the key. -/
theorem ingested_dev_sells_all_zero (inputs : List DevWalletChangeInput)
    (now now2 windowMs : Nat) (mintAddress devWallet : String) :
    (∀ e ∈ ingestDevSells inputs,
      e.amount = "0" ∧ e.percentageOfHoldings = 0) ∧
    devSellPercentageOf (applyDevSells [] (ingestDevSells inputs) now)
      mintAddress devWallet = 0 ∧
    getDevSellPercentageInWindow
      (applyDevSells [] (ingestDevSells inputs) now)
      mintAddress devWallet windowMs now2 = 0 ∧
    devSellCountOf (applyDevSells [] (ingestDevSells inputs) now)
      mintAddress devWallet = countForKey inputs mintAddress devWallet := by
  have hz : ∀ e ∈ ingestDevSells inputs,
      e.amount = "0" ∧ e.percentageOfHoldings = 0 := by
    intro e he
    simp only [ingestDevSells, List.mem_map] at he
    obtain ⟨i, _, hi⟩ := he
    rw [← hi]
    exact ⟨rfl, rfl⟩
  have hmap : ZeroPctMap (applyDevSells [] (ingestDevSells inputs) now) :=
    applyDevSells_zeroPct _ _ now (fun kv hkv => absurd hkv (by simp))
      (fun e he => (hz e he).2)
  refine ⟨hz, totalPct_zero_of_zeroPct _ _ _ hmap,
    window_zero_of_zeroPct _ _ _ _ _ hmap, ?_⟩
  rw [devSellCountOf_applyDevSells, countEventsForKey_ingest]
  simp [devSellCountOf, mapFind]

/-- **C10 witness**: the statement instantiated on two concrete
ingestion callbacks for `(mint1, dev1)`. -/
theorem ingested_dev_sells_all_zero_witness :
    (∀ e ∈ ingestDevSells [demoDevWalletChange, demoDevWalletChange2],
      e.amount = "0" ∧ e.percentageOfHoldings = 0) ∧
    devSellPercentageOf
      (applyDevSells []
        (ingestDevSells [demoDevWalletChange, demoDevWalletChange2])
        1700000001000) "mint1" "dev1" = 0 ∧
    getDevSellPercentageInWindow
      (applyDevSells []
        (ingestDevSells [demoDevWalletChange, demoDevWalletChange2])
        1700000001000) "mint1" "dev1" 600000 1700000001000 = 0 ∧
    devSellCountOf
      (applyDevSells []
        (ingestDevSells [demoDevWalletChange, demoDevWalletChange2])
        1700000001000) "mint1" "dev1" =
      countForKey [demoDevWalletChange, demoDevWalletChange2] "mint1"
        "dev1" :=
  ingested_dev_sells_all_zero [demoDevWalletChange, demoDevWalletChange2]
    1700000001000 1700000001000 600000 "mint1" "dev1"

/-! ## Claim C1 -/

/-- **C1 counterexample.** Delivering a `DEV_WALLET_SELL` event with
`percentageOfHoldings = 10` on empty metrics: both policy evaluations
of the event observe a windowed sum of `0`, while the windowed sum on
the metrics that include the event — the value the claim says an
evaluation of the event sees — is `10`.  The State Engine's dev-metrics
update therefore does **not** happen before the Policy Engine's
evaluation of the same event. -/
theorem emitDevSell_stale_read_counterexample :
    (emitDevSell demoDevSellPolicy 1700000000000 [] demoDevSellEvent).2 =
      [0, 0] ∧
    getDevSellPercentageInWindow
      (emitDevSell demoDevSellPolicy 1700000000000 [] demoDevSellEvent).1
      "mint1" "dev1" 600000 1700000000000 = 10 ∧
    (0 : Rat) ≠ 10 := by
  refine ⟨rfl, ?_, by norm_num⟩
  show getDevSellPercentageInWindow
    (handleDevSell [] demoDevSellEvent 1700000000000)
    "mint1" "dev1" 600000 1700000000000 = 10
  norm_num [getDevSellPercentageInWindow, handleDevSell, freshDevMetrics,
    mapSet, mapFind, demoDevSellEvent, List.filter]

/-- **C1 (amended).** For every `DEV_WALLET_SELL` event delivered
through the event bus, every Policy Engine evaluation of the event —
the Policy Engine subscriber's and the Orchestrator's, both on the
catch-all channel that `EventBus.emit` serves first — reads the
windowed dev-sell sum from the **pre-event** metrics, excluding the
event's own `percentageOfHoldings`; the State Engine's dev-metrics
update for the event happens only afterwards, on the typed channel. -/
theorem emitDevSell_policy_sees_pre_state (policy : PolicyDefinition)
    (now : Nat) (m : DevMetricsMap) (event : DevWalletEvent) :
    (emitDevSell policy now m event).2 =
      [getDevSellPercentageInWindow m event.mintAddress event.devWallet
        ((policy.windowSeconds.getD 600) * 1000) now,
       getDevSellPercentageInWindow m event.mintAddress event.devWallet
        ((policy.windowSeconds.getD 600) * 1000) now] ∧
    (emitDevSell policy now m event).1 = handleDevSell m event now :=
  ⟨rfl, rfl⟩

/-! ## Helper lemmas: risk-engine rule blocks -/

theorem hasRule_append (l1 l2 : List RiskViolation) (r : RiskRule) :
    (∃ v ∈ l1 ++ l2, v.rule = r) ↔
      (∃ v ∈ l1, v.rule = r) ∨ (∃ v ∈ l2, v.rule = r) := by
  simp [List.mem_append, or_and_right, exists_or]

theorem hasRule_ite_singleton (c : Prop) [Decidable c]
    (v : RiskViolation) (r : RiskRule) :
    (∃ w ∈ (if c then [v] else []), w.rule = r) ↔ (c ∧ v.rule = r) := by
  split <;> simp_all

theorem hasRule_cooldown (params : RiskParameters) (now : Nat)
    (le : LastExecutionMap) (positionId : String) (r : RiskRule) :
    (∃ v ∈ cooldownViolations params now le positionId, v.rule = r) ↔
      ((∃ t, mapFind le positionId = some t ∧ t ≠ 0 ∧
          (now : Int) - t < params.executionCooldownMs) ∧
        RiskRule.EXECUTION_COOLDOWN = r) := by
  unfold cooldownViolations
  rcases hf : mapFind le positionId with _ | t
  · simp
  · dsimp only
    split_ifs with h0 h1 <;> simp_all

theorem hasRule_position (params : RiskParameters)
    (position : Option PositionState) (r : RiskRule) :
    (∃ v ∈ positionSizeViolations params position, v.rule = r) ↔
      ((∃ p, position = some p ∧
          p.entryAmountSol > params.maxPositionSizeSol) ∧
        RiskRule.MAX_POSITION_SIZE = r) := by
  rcases position with _ | p
  · simp [positionSizeViolations]
  · unfold positionSizeViolations
    dsimp only
    split_ifs with h <;> simp_all

theorem hasViol_slippage_iff (params : RiskParameters)
    (position : Option PositionState) (now : Nat)
    (le : LastExecutionMap) (request : ExecutionRequest) :
    (∃ v ∈ allViolations params position now le request,
      v.rule = RiskRule.MAX_SLIPPAGE) ↔
      request.maxSlippageBps > params.maxSlippageBps := by
  simp only [allViolations, slippageViolations, feeViolations,
    sellPercentageViolations, hasRule_append, hasRule_ite_singleton,
    hasRule_cooldown, hasRule_position]
  simp

theorem hasViol_fee_iff (params : RiskParameters)
    (position : Option PositionState) (now : Nat)
    (le : LastExecutionMap) (request : ExecutionRequest) :
    (∃ v ∈ allViolations params position now le request,
      v.rule = RiskRule.MAX_PRIORITY_FEE) ↔
      request.priorityFeeLamports > params.maxPriorityFeeLamports := by
  simp only [allViolations, slippageViolations, feeViolations,
    sellPercentageViolations, hasRule_append, hasRule_ite_singleton,
    hasRule_cooldown, hasRule_position]
  simp

theorem hasViol_cooldown_iff (params : RiskParameters)
    (position : Option PositionState) (now : Nat)
    (le : LastExecutionMap) (request : ExecutionRequest) :
    (∃ v ∈ allViolations params position now le request,
      v.rule = RiskRule.EXECUTION_COOLDOWN) ↔
      (∃ t, mapFind le request.positionId = some t ∧ t ≠ 0 ∧
        (now : Int) - t < params.executionCooldownMs) := by
  simp only [allViolations, slippageViolations, feeViolations,
    sellPercentageViolations, hasRule_append, hasRule_ite_singleton,
    hasRule_cooldown, hasRule_position]
  simp

theorem hasViol_positionSize_iff (params : RiskParameters)
    (position : Option PositionState) (now : Nat)
    (le : LastExecutionMap) (request : ExecutionRequest) :
    (∃ v ∈ allViolations params position now le request,
      v.rule = RiskRule.MAX_POSITION_SIZE) ↔
      (∃ p, position = some p ∧
        p.entryAmountSol > params.maxPositionSizeSol) := by
  simp only [allViolations, slippageViolations, feeViolations,
    sellPercentageViolations, hasRule_append, hasRule_ite_singleton,
    hasRule_cooldown, hasRule_position]
  simp

theorem hasViol_sellPercentage_iff (params : RiskParameters)
    (position : Option PositionState) (now : Nat)
    (le : LastExecutionMap) (request : ExecutionRequest) :
    (∃ v ∈ allViolations params position now le request,
      v.rule = RiskRule.INVALID_SELL_PERCENTAGE) ↔
      (request.sellPercentage ≤ 0 ∨ request.sellPercentage > 100) := by
  simp only [allViolations, slippageViolations, feeViolations,
    sellPercentageViolations, hasRule_append, hasRule_ite_singleton,
    hasRule_cooldown, hasRule_position]
  simp

theorem allViolations_empty_of_passing (params : RiskParameters)
    (position : Option PositionState) (now : Nat)
    (le : LastExecutionMap) (request : ExecutionRequest)
    (hfind : mapFind le request.positionId = none)
    (hslip : request.maxSlippageBps ≤ params.maxSlippageBps)
    (hfee : request.priorityFeeLamports ≤ params.maxPriorityFeeLamports)
    (hpos : ∀ p, position = some p →
      p.entryAmountSol ≤ params.maxPositionSizeSol)
    (hsell1 : 0 < request.sellPercentage)
    (hsell2 : request.sellPercentage ≤ 100) :
    allViolations params position now le request = [] := by
  unfold allViolations slippageViolations feeViolations
    cooldownViolations positionSizeViolations sellPercentageViolations
  rcases position with _ | p
  · simp [hfind, not_lt.mpr hslip, not_lt.mpr hfee, not_le.mpr hsell1,
      not_lt.mpr hsell2]
  · simp [hfind, not_lt.mpr hslip, not_lt.mpr hfee, not_le.mpr hsell1,
      not_lt.mpr hsell2, not_lt.mpr (hpos p rfl)]

theorem cooldownViolations_after_stamp (params : RiskParameters)
    (now1 now2 : Nat) (le : LastExecutionMap) (positionId : String)
    (hn1 : 0 < now1)
    (hwin : (now2 : Int) - now1 < params.executionCooldownMs) :
    cooldownViolations params now2 (mapSet le positionId now1)
      positionId =
      [{ rule := RiskRule.EXECUTION_COOLDOWN,
         currentValue := (((now2 : Int) - now1 : Int) : Rat),
         limit := params.executionCooldownMs }] := by
  unfold cooldownViolations
  rw [mapFind_set_self]
  dsimp only
  rw [if_pos hn1.ne', if_pos hwin]

/-! ## Claim C7 -/

/-- **C7.**  `RiskEngine.evaluate` (1) approves exactly when the
violation list is empty and leaves `lastExecutionTime` untouched on any
rejection; (2) collects every applicable violation without
short-circuiting — each of the five rules occurs among the returned
violations exactly when its breach condition holds; and (3) the
cooldown scenario: two otherwise-passing requests for the same position
within `executionCooldownMs` of each other produce exactly one approval
(the first, with no violations) and exactly one `EXECUTION_COOLDOWN`
violation (the second, whose violation list is that single entry). -/
theorem riskEvaluate_properties :
    (∀ (params : RiskParameters) (position : Option PositionState)
        (now : Nat) (le : LastExecutionMap) (request : ExecutionRequest),
      ((RiskEngine.evaluate params position now le request).1.approved =
          true ↔
        (RiskEngine.evaluate params position now le request).1.violations
          = []) ∧
      ((RiskEngine.evaluate params position now le request).1.approved =
          false →
        (RiskEngine.evaluate params position now le request).2 = le)) ∧
    (∀ (params : RiskParameters) (position : Option PositionState)
        (now : Nat) (le : LastExecutionMap) (request : ExecutionRequest),
      ((∃ v ∈ (RiskEngine.evaluate params position now le
            request).1.violations, v.rule = RiskRule.MAX_SLIPPAGE) ↔
        request.maxSlippageBps > params.maxSlippageBps) ∧
      ((∃ v ∈ (RiskEngine.evaluate params position now le
            request).1.violations, v.rule = RiskRule.MAX_PRIORITY_FEE) ↔
        request.priorityFeeLamports > params.maxPriorityFeeLamports) ∧
      ((∃ v ∈ (RiskEngine.evaluate params position now le
            request).1.violations, v.rule = RiskRule.EXECUTION_COOLDOWN) ↔
        (∃ t, mapFind le request.positionId = some t ∧ t ≠ 0 ∧
          (now : Int) - t < params.executionCooldownMs)) ∧
      ((∃ v ∈ (RiskEngine.evaluate params position now le
            request).1.violations, v.rule = RiskRule.MAX_POSITION_SIZE) ↔
        (∃ p, position = some p ∧
          p.entryAmountSol > params.maxPositionSizeSol)) ∧
      ((∃ v ∈ (RiskEngine.evaluate params position now le
            request).1.violations,
          v.rule = RiskRule.INVALID_SELL_PERCENTAGE) ↔
        (request.sellPercentage ≤ 0 ∨ request.sellPercentage > 100))) ∧
    (∀ (params : RiskParameters) (position : Option PositionState)
        (now1 now2 : Nat) (le : LastExecutionMap)
        (request : ExecutionRequest),
      mapFind le request.positionId = none →
      request.maxSlippageBps ≤ params.maxSlippageBps →
      request.priorityFeeLamports ≤ params.maxPriorityFeeLamports →
      (∀ p, position = some p →
        p.entryAmountSol ≤ params.maxPositionSizeSol) →
      0 < request.sellPercentage → request.sellPercentage ≤ 100 →
      0 < now1 →
      (now2 : Int) - now1 < params.executionCooldownMs →
      (RiskEngine.evaluate params position now1 le request).1.approved =
        true ∧
      (RiskEngine.evaluate params position now1 le request).1.violations
        = [] ∧
      (RiskEngine.evaluate params position now2
        (RiskEngine.evaluate params position now1 le request).2
        request).1.approved = false ∧
      ((RiskEngine.evaluate params position now2
        (RiskEngine.evaluate params position now1 le request).2
        request).1.violations).map RiskViolation.rule =
        [RiskRule.EXECUTION_COOLDOWN]) := by
  refine ⟨?_, ?_, ?_⟩
  · intro params position now le request
    unfold RiskEngine.evaluate
    constructor
    · exact List.isEmpty_iff
    · intro h
      have hne : ¬allViolations params position now le request = [] := by
        intro he
        rw [he] at h
        exact Bool.noConfusion h
      exact if_neg hne
  · intro params position now le request
    exact ⟨hasViol_slippage_iff params position now le request,
      hasViol_fee_iff params position now le request,
      hasViol_cooldown_iff params position now le request,
      hasViol_positionSize_iff params position now le request,
      hasViol_sellPercentage_iff params position now le request⟩
  · intro params position now1 now2 le request hfind hslip hfee hpos
      hs1 hs2 hn1 hwin
    have h1 : allViolations params position now1 le request = [] :=
      allViolations_empty_of_passing params position now1 le request
        hfind hslip hfee hpos hs1 hs2
    have hsnd : (RiskEngine.evaluate params position now1 le request).2 =
        mapSet le request.positionId now1 := by
      unfold RiskEngine.evaluate
      exact if_pos h1
    have hblocks := h1
    unfold allViolations at hblocks
    rw [List.append_eq_nil, List.append_eq_nil, List.append_eq_nil,
      List.append_eq_nil] at hblocks
    obtain ⟨⟨⟨⟨ha, hb⟩, _⟩, hd⟩, he⟩ := hblocks
    have h2 : allViolations params position now2
        (mapSet le request.positionId now1) request =
        [{ rule := RiskRule.EXECUTION_COOLDOWN,
           currentValue := (((now2 : Int) - now1 : Int) : Rat),
           limit := params.executionCooldownMs }] := by
      unfold allViolations
      rw [ha, hb, hd, he,
        cooldownViolations_after_stamp params now1 now2 le
          request.positionId hn1 hwin]
      rfl
    refine ⟨?_, ?_, ?_, ?_⟩
    · unfold RiskEngine.evaluate
      rw [h1]
      rfl
    · unfold RiskEngine.evaluate
      exact h1
    · rw [hsnd]
      unfold RiskEngine.evaluate
      rw [h2]
      rfl
    · rw [hsnd]
      unfold RiskEngine.evaluate
      rw [h2]
      rfl

/-- **C7 witness**: the scenario instantiated with the fixture
parameters, an in-cap open position, a passing request, and calls at
`t = 1000` and `t = 2000` ms against a 5000 ms cooldown. -/
theorem riskEvaluate_properties_witness :
    mapFind ([] : LastExecutionMap) demoValidRequest.positionId = none ∧
    ((RiskEngine.evaluate demoRiskParams (some demoOpenPosition) 1000 []
        demoValidRequest).1.approved = true ∧
      (RiskEngine.evaluate demoRiskParams (some demoOpenPosition) 1000 []
        demoValidRequest).1.violations = [] ∧
      (RiskEngine.evaluate demoRiskParams (some demoOpenPosition) 2000
        (RiskEngine.evaluate demoRiskParams (some demoOpenPosition) 1000
          [] demoValidRequest).2 demoValidRequest).1.approved = false ∧
      ((RiskEngine.evaluate demoRiskParams (some demoOpenPosition) 2000
        (RiskEngine.evaluate demoRiskParams (some demoOpenPosition) 1000
          [] demoValidRequest).2 demoValidRequest).1.violations).map
        RiskViolation.rule = [RiskRule.EXECUTION_COOLDOWN]) :=
  ⟨rfl, riskEvaluate_properties.2.2 demoRiskParams (some demoOpenPosition)
    1000 2000 [] demoValidRequest rfl (by decide) (by decide)
    (fun p hp => by cases hp; decide) (by decide) (by decide) (by decide)
    (by decide)⟩

/-! ## Claim C3 -/

/-- **C3 counterexample.** A concrete risk-rejected execution (slippage
500 bps against a 300 bps cap): `execute` persists the `FAILED` result
and returns, but performs **no** `resetCooldown` call — the effect
trace is exactly the persist — and leaves the Risk Engine's cooldown
map as it was. -/
theorem execute_rejected_no_reset_counterexample :
    (ExecutionEngine.execute "x1" demoRiskParams 1000 demoRejectedRequest
      (some demoOpenPosition) [] demoExecEnv).result.status =
      ExecutionStatus.FAILED ∧
    (ExecutionEngine.execute "x1" demoRiskParams 1000 demoRejectedRequest
      (some demoOpenPosition) [] demoExecEnv).effects =
      [ExecEffect.persistExecution ExecutionStatus.FAILED] ∧
    ExecEffect.resetCooldown demoRejectedRequest.positionId ∉
      (ExecutionEngine.execute "x1" demoRiskParams 1000
        demoRejectedRequest (some demoOpenPosition) []
        demoExecEnv).effects ∧
    (ExecutionEngine.execute "x1" demoRiskParams 1000 demoRejectedRequest
      (some demoOpenPosition) [] demoExecEnv).lastExecutionTime = [] := by
  refine ⟨by decide, by decide, by decide, by decide⟩

/-- **C3 (amended).** When the Risk Engine rejects a request,
`ExecutionEngine.execute` persists a `FAILED` result whose message is
the concatenated violations and returns; it never calls
`RiskEngine.resetCooldown`, and the cooldown map is unchanged — a
rejected evaluation records no timestamp in the first place, so there
is no entry for `resetCooldown` to erase. -/
theorem execute_rejected_no_reset (executionId : String)
    (params : RiskParameters) (now : Nat) (request : ExecutionRequest)
    (position : Option PositionState) (le : LastExecutionMap)
    (env : ExecEnv)
    (h : (RiskEngine.evaluate params position now le
      request).1.approved = false) :
    (ExecutionEngine.execute executionId params now request position le
      env).result.status = ExecutionStatus.FAILED ∧
    (ExecutionEngine.execute executionId params now request position le
      env).result.errorMessage = some ("Risk violations: " ++
        String.intercalate "; "
          ((RiskEngine.evaluate params position now le
            request).1.violations.map violationMessage)) ∧
    (ExecutionEngine.execute executionId params now request position le
      env).effects = [ExecEffect.persistExecution ExecutionStatus.FAILED]
      ∧
    (∀ pid, ExecEffect.resetCooldown pid ∉
      (ExecutionEngine.execute executionId params now request position le
        env).effects) ∧
    (ExecutionEngine.execute executionId params now request position le
      env).lastExecutionTime = le := by
  have hne : allViolations params position now le request ≠ [] := by
    intro he
    unfold RiskEngine.evaluate at h
    rw [he] at h
    exact Bool.noConfusion h
  have hsnd : (RiskEngine.evaluate params position now le request).2 =
      le := by
    unfold RiskEngine.evaluate
    exact if_neg hne
  unfold ExecutionEngine.execute
  rw [if_pos h]
  refine ⟨rfl, rfl, rfl, ?_, hsnd⟩
  intro pid hmem
  simp at hmem

/-- **C3 witness**: the amended statement applied to the concrete
rejected execution of the counterexample. -/
theorem execute_rejected_no_reset_witness :
    (RiskEngine.evaluate demoRiskParams (some demoOpenPosition) 1000 []
      demoRejectedRequest).1.approved = false ∧
    ((ExecutionEngine.execute "x2" demoRiskParams 1000
        demoRejectedRequest (some demoOpenPosition) []
        demoExecEnv).result.status = ExecutionStatus.FAILED ∧
      (ExecutionEngine.execute "x2" demoRiskParams 1000
        demoRejectedRequest (some demoOpenPosition) []
        demoExecEnv).result.errorMessage = some ("Risk violations: " ++
          String.intercalate "; "
            ((RiskEngine.evaluate demoRiskParams (some demoOpenPosition)
              1000 [] demoRejectedRequest).1.violations.map
              violationMessage)) ∧
      (ExecutionEngine.execute "x2" demoRiskParams 1000
        demoRejectedRequest (some demoOpenPosition) []
        demoExecEnv).effects =
        [ExecEffect.persistExecution ExecutionStatus.FAILED] ∧
      (∀ pid, ExecEffect.resetCooldown pid ∉
        (ExecutionEngine.execute "x2" demoRiskParams 1000
          demoRejectedRequest (some demoOpenPosition) []
          demoExecEnv).effects) ∧
      (ExecutionEngine.execute "x2" demoRiskParams 1000
        demoRejectedRequest (some demoOpenPosition) []
        demoExecEnv).lastExecutionTime = []) :=
  ⟨by decide, execute_rejected_no_reset "x2" demoRiskParams 1000
    demoRejectedRequest (some demoOpenPosition) [] demoExecEnv
    (by decide)⟩

/-! ## Claim C5 -/

/-- **C5.** Part 1: when the transaction simulation reports a non-null
error, `execute` returns a `FAILED` result whose `errorMessage` is
prefixed `Simulation failed:`, performs no send attempt, and leaves the
in-memory position unchanged.  Part 2: on **every** `FAILED` outcome
(risk-rejected, position-missing, thrown fetch/build/simulate/send
errors, simulation failure) the in-memory position is unchanged. -/
theorem execute_simulation_failure_preserves_position :
    (∀ (executionId : String) (params : RiskParameters) (now : Nat)
        (request : ExecutionRequest) (p : PositionState)
        (le : LastExecutionMap) (env : ExecEnv)
        (c : BondingCurveState) (q : PumpQuote) (e : String),
      (RiskEngine.evaluate params (some p) now le request).1.approved =
        true →
      env.curve = Except.ok c →
      calculateSellQuote c (Int.tdiv
        (p.tokenBalance * ⌊request.sellPercentage⌋) 100) = some q →
      env.buildOutcome = Except.ok () →
      env.simOutcome = Except.ok (some e) →
      (ExecutionEngine.execute executionId params now request (some p) le
        env).result.status = ExecutionStatus.FAILED ∧
      (ExecutionEngine.execute executionId params now request (some p) le
        env).result.errorMessage = some ("Simulation failed: " ++ e) ∧
      ExecEffect.sendAttempt ∉
        (ExecutionEngine.execute executionId params now request (some p)
          le env).effects ∧
      (ExecutionEngine.execute executionId params now request (some p) le
        env).position = some p) ∧
    (∀ (executionId : String) (params : RiskParameters) (now : Nat)
        (request : ExecutionRequest) (position : Option PositionState)
        (le : LastExecutionMap) (env : ExecEnv),
      (ExecutionEngine.execute executionId params now request position le
        env).result.status = ExecutionStatus.FAILED →
      (ExecutionEngine.execute executionId params now request position le
        env).position = position) := by
  constructor
  · intro executionId params now request p le env c q e happr hcurve
      hquote hbuild hsim
    unfold ExecutionEngine.execute
    dsimp only
    rw [if_neg (by simp [happr])]
    try dsimp only
    rw [hcurve]
    try dsimp only
    rw [hquote]
    try dsimp only
    rw [hbuild]
    try dsimp only
    rw [hsim]
    try dsimp only
    rw [if_pos (show (some e).isNone = false from rfl)]
    refine ⟨rfl, rfl, ?_, rfl⟩
    intro hmem
    simp at hmem
  · intro executionId params now request position le env
    unfold ExecutionEngine.execute
    dsimp only
    split
    · exact fun _ => rfl
    · split
      · exact fun _ => rfl
      · split
        · exact fun _ => rfl
        · split
          · exact fun _ => rfl
          · split
            · exact fun _ => rfl
            · split
              · exact fun _ => rfl
              · split
                · exact fun _ => rfl
                · split
                  · exact fun _ => rfl
                  · intro h
                    simp [confirmedResult] at h

/-- **C5 witness**: the simulation-failure clause evaluated on a
concrete passing request whose oracle's simulation reports
`custom program error 1`. -/
theorem execute_simulation_failure_witness :
    (RiskEngine.evaluate demoRiskParams (some demoOpenPosition) 1000 []
      demoValidRequest).1.approved = true ∧
    ((ExecutionEngine.execute "x3" demoRiskParams 1000 demoValidRequest
        (some demoOpenPosition) [] demoSimFailEnv).result.status =
        ExecutionStatus.FAILED ∧
      (ExecutionEngine.execute "x3" demoRiskParams 1000 demoValidRequest
        (some demoOpenPosition) [] demoSimFailEnv).result.errorMessage =
        some ("Simulation failed: " ++ "custom program error 1") ∧
      ExecEffect.sendAttempt ∉
        (ExecutionEngine.execute "x3" demoRiskParams 1000
          demoValidRequest (some demoOpenPosition) []
          demoSimFailEnv).effects ∧
      (ExecutionEngine.execute "x3" demoRiskParams 1000 demoValidRequest
        (some demoOpenPosition) [] demoSimFailEnv).position =
        some demoOpenPosition) :=
  ⟨by decide, execute_simulation_failure_preserves_position.1 "x3"
    demoRiskParams 1000 demoValidRequest demoOpenPosition []
    demoSimFailEnv demoCurveState demoSellQuoteLarge
    "custom program error 1" (by decide) rfl (by decide) rfl rfl⟩

/-! ## Claim C8 -/

/-- **C8 counterexample.** An entry plan whose SOL amount is zero is
abandoned by `executeEntry` with an early `return`: `executePlan`
completes without sending any `execution-result` message to the memory
agent. -/
theorem executePlan_silent_abandonment_counterexample :
    demoZeroAmountPlan.action = PlanAction.enter ∧
    ExecutorAgent.executePlan demoZeroAmountPlan demoExecutorEnv = [] :=
  ⟨rfl, by decide⟩

/-- **C8 (amended).** The executor-agent reports an `execution-result`
to the memory agent for successful entries, for entry plans whose
processing throws, and for every exit plan that carries a `positionId`;
but entry plans abandoned by an early return — no positive SOL amount,
bonding curve already complete, or a simulation error — as well as exit
plans without a `positionId` and `skip` plans, send **no** message. -/
theorem executor_memory_report_characterization :
    (∀ (plan : ExecutionPlan) (env : ExecutorEnv),
      plan.action = PlanAction.enter → plan.solAmount = none →
      ExecutorAgent.executePlan plan env = []) ∧
    (∀ (plan : ExecutionPlan) (env : ExecutorEnv) (a : Rat),
      plan.action = PlanAction.enter → plan.solAmount = some a →
      a ≤ 0 → ExecutorAgent.executePlan plan env = []) ∧
    (∀ (plan : ExecutionPlan) (env : ExecutorEnv) (a : Rat)
        (c : BondingCurveState),
      plan.action = PlanAction.enter → plan.solAmount = some a →
      ¬a ≤ 0 → env.curve = Except.ok c → c.complete = true →
      ExecutorAgent.executePlan plan env = []) ∧
    (∀ (plan : ExecutionPlan) (env : ExecutorEnv) (a : Rat)
        (c : BondingCurveState) (q : PumpQuote) (e : String),
      plan.action = PlanAction.enter → plan.solAmount = some a →
      ¬a ≤ 0 → env.curve = Except.ok c → c.complete = false →
      calculateBuyQuote c (jsRound (a * 1000000000)) = some q →
      env.buildOutcome = Except.ok () →
      env.simOutcome = Except.ok (some e) →
      ExecutorAgent.executePlan plan env = []) ∧
    (∀ (plan : ExecutionPlan) (env : ExecutorEnv) (msg : String),
      plan.action = PlanAction.enter →
      ExecutorAgent.executeEntry plan env = Except.error msg →
      ExecutorAgent.executePlan plan env =
        [{ planId := plan.id, action := PlanAction.enter,
           success := false, error := some msg }]) ∧
    (∀ (plan : ExecutionPlan) (env : ExecutorEnv) (pid : String),
      (plan.action = PlanAction.exitFull ∨
        plan.action = PlanAction.partialExit) →
      plan.positionId = some pid →
      (ExecutorAgent.executePlan plan env).length = 1) ∧
    (∀ (plan : ExecutionPlan) (env : ExecutorEnv),
      (plan.action = PlanAction.exitFull ∨
        plan.action = PlanAction.partialExit) →
      plan.positionId = none →
      ExecutorAgent.executePlan plan env = []) ∧
    (∀ (plan : ExecutionPlan) (env : ExecutorEnv),
      plan.action = PlanAction.skipPlan →
      ExecutorAgent.executePlan plan env = []) := by
  refine ⟨?_, ?_, ?_, ?_, ?_, ?_, ?_, ?_⟩
  · intro plan env ha hs
    unfold ExecutorAgent.executePlan ExecutorAgent.executeEntry
    rw [ha, hs]
  · intro plan env a ha hs hle
    unfold ExecutorAgent.executePlan ExecutorAgent.executeEntry
    rw [ha, hs]
    dsimp only
    rw [if_pos hle]
  · intro plan env a c ha hs hpos hcurve hcomplete
    unfold ExecutorAgent.executePlan ExecutorAgent.executeEntry
    rw [ha, hs]
    dsimp only
    rw [if_neg hpos, hcurve]
    dsimp only
    rw [if_pos hcomplete]
  · intro plan env a c q e ha hs hpos hcurve hcomplete hquote hbuild hsim
    unfold ExecutorAgent.executePlan ExecutorAgent.executeEntry
    rw [ha, hs]
    dsimp only
    rw [if_neg hpos, hcurve]
    dsimp only
    rw [if_neg (by rw [hcomplete]; exact Bool.noConfusion), hquote]
    dsimp only
    rw [hbuild]
    dsimp only
    rw [hsim]
  · intro plan env msg ha herr
    unfold ExecutorAgent.executePlan
    rw [ha]
    dsimp only
    rw [herr]
  · intro plan env pid ha hpid
    unfold ExecutorAgent.executePlan
    rcases ha with ha | ha <;>
      (rw [ha]; unfold ExecutorAgent.executeExit; rw [hpid]; rfl)
  · intro plan env ha hpid
    unfold ExecutorAgent.executePlan
    rcases ha with ha | ha <;>
      (rw [ha]; unfold ExecutorAgent.executeExit; rw [hpid])
  · intro plan env ha
    unfold ExecutorAgent.executePlan
    rw [ha]

/-- **C8 witness**: the zero-amount abandonment and the reported exit,
each on concrete plans and oracles. -/
theorem executor_memory_report_characterization_witness :
    demoZeroAmountPlan.action = PlanAction.enter ∧
    demoZeroAmountPlan.solAmount = some 0 ∧
    ((0 : Rat) ≤ 0) ∧
    ExecutorAgent.executePlan demoZeroAmountPlan demoExecutorEnv = [] ∧
    demoExitPlan.positionId = some "pos1" ∧
    (ExecutorAgent.executePlan demoExitPlan demoExecutorEnv).length =
      1 :=
  ⟨rfl, rfl, by decide,
   executor_memory_report_characterization.2.1 demoZeroAmountPlan
     demoExecutorEnv 0 rfl rfl (by decide),
   rfl,
   executor_memory_report_characterization.2.2.2.2.2.1 demoExitPlan
     demoExecutorEnv "pos1" (Or.inl rfl) rfl⟩

end Cyclawps
